import Mathlib

/-!
Verification of the protos CLI's instance-provisioning orchestrator,
teardown pipeline, SSH tunnel lifecycle, and cloud-provider factory,
shallowly embedded from the Go sources in `cmd/protos/instance.go`,
`cmd/protos/cloud.go` and `internal/cloud/cloud.go`.

External collaborators (the cloud-provider REST client, the persistent
store, the release descriptor, the `ssh` key/tunnel package) are modelled
as explicit behaviour records: each remote or fallible call site of the
orchestrator reads its outcome from a field of the behaviour, and the
orchestrator's own control flow — the order of calls, the persistence
checkpoints, the early returns — is translated line by line from the Go
source. Every run produces a trace of events, a final store state and a
result, so temporal claims become statements about the trace and
persistence claims statements about the store.
-/

namespace Protos

/-- A volume record as enumerated by the provider: name plus provider id. -/
structure VolumeInfo where
  name : String
  volumeID : String
  deriving Repr, DecidableEq

/-- The instance record persisted by the store, from `cloud.InstanceInfo`:
name, public IP, owning cloud account, provider VM id, location, the SSH
key seed bytes and the attached volumes. -/
structure InstanceInfo where
  name : String
  publicIP : String
  cloudName : String
  vmID : String
  location : String
  keySeed : List Nat
  volumes : List VolumeInfo
  deriving Repr, DecidableEq

/-- One image entry of a release descriptor: download URL plus digest. -/
structure CloudImage where
  url : String
  digest : String
  deriving Repr, DecidableEq

/-- A release descriptor: version plus the per-provider image map
(`release.Release`, whose source lives outside `src/`; the shape is taken
from its use sites `release.Version` and `release.CloudImages["scaleway"]`). -/
structure Release where
  version : String
  cloudImages : List (String × CloudImage)
  deriving Repr, DecidableEq

/-- A cloud account record as returned by `dbp.GetCloud`: name and the
provider type it is bound to. -/
structure ProviderRec where
  name : String
  ptype : String
  deriving Repr, DecidableEq

/-- Go map lookup over an association list. -/
def alookup {α : Type} (l : List (String × α)) (k : String) : Option α :=
  (l.find? (fun p => p.1 == k)).map (fun p => p.2)

/-- The store keyed by instance name: fetch, from `dbp.GetInstance`. -/
def storeGet (db : List InstanceInfo) (n : String) : Option InstanceInfo :=
  db.find? (fun i => i.name == n)

/-- The store keyed by instance name: upsert, from `dbp.SaveInstance`. -/
def storeSave (db : List InstanceInfo) (rec : InstanceInfo) : List InstanceInfo :=
  (db.filter (fun i => !(i.name == rec.name))) ++ [rec]

/-- The store keyed by instance name: removal, from `dbp.DeleteInstance`. -/
def storeDelete (db : List InstanceInfo) (n : String) : List InstanceInfo :=
  db.filter (fun i => !(i.name == n))

/-- Boolean success test for `Except`. -/
def exOk {ε α : Type} : Except ε α → Bool
  | .ok _ => true
  | .error _ => false

/-- `errors.Wrap`: prepend the call-site context to the cause. -/
def wrapE (msg e : String) : String := msg ++ ": " ++ e

/-- One observable action of a run: each store, provider, key or tunnel
call the orchestrator makes, with the arguments it passes. -/
inductive Ev where
  | dbGetInstance (name : String)
  | getCloud (name : String)
  | clientInit (location : String)
  | getImages
  | addImage (url digest version : String)
  | genKey
  | newInstance (name imageID : String) (pubKey : List Nat)
  | getInfo (vmID : String)
  | saveInstance (rec : InstanceInfo)
  | newVolume (name : String) (sizeMB : Nat)
  | attachVolume (volumeID vmID : String)
  | startInstance (vmID : String)
  | stopInstance (vmID : String)
  | deleteInstance (vmID : String)
  | deleteVolume (volumeID : String)
  | dbDeleteInstance (name : String)
  | tunnelStart (remoteAddr user target : String)
  | waitSignal
  | tunnelClose
  | printKey (pem : String)
  deriving Repr, DecidableEq

/-- The operation kind of an event, forgetting arguments. -/
inductive OpKind where
  | dbGetInstance | getCloud | clientInit | getImages | addImage | genKey
  | newInstance | getInfo | saveInstance | newVolume | attachVolume
  | startInstance | stopInstance | deleteInstance | deleteVolume
  | dbDeleteInstance | tunnelStart | waitSignal | tunnelClose | printKey
  deriving Repr, DecidableEq

def Ev.kind : Ev → OpKind
  | .dbGetInstance _ => .dbGetInstance
  | .getCloud _ => .getCloud
  | .clientInit _ => .clientInit
  | .getImages => .getImages
  | .addImage _ _ _ => .addImage
  | .genKey => .genKey
  | .newInstance _ _ _ => .newInstance
  | .getInfo _ => .getInfo
  | .saveInstance _ => .saveInstance
  | .newVolume _ _ => .newVolume
  | .attachVolume _ _ => .attachVolume
  | .startInstance _ => .startInstance
  | .stopInstance _ => .stopInstance
  | .deleteInstance _ => .deleteInstance
  | .deleteVolume _ => .deleteVolume
  | .dbDeleteInstance _ => .dbDeleteInstance
  | .tunnelStart _ _ _ => .tunnelStart
  | .waitSignal => .waitSignal
  | .tunnelClose => .tunnelClose
  | .printKey _ => .printKey

/-- An SSH key pair: the seed bytes and the derived public key bytes
(`ssh.Key`; the package's source is outside `src/`, its shape is taken
from the use sites `key.Public()`, `key.Seed()`, `ssh.NewKeyFromSeed`). -/
structure KeyPair where
  seed : List Nat
  pub : List Nat
  deriving Repr, DecidableEq

/-- The outcome of every fallible call `deployInstance` makes, one field
per call site, in source order. The provider client, the store's cloud
table, key generation and the release descriptor are external
collaborators, so their outcomes are inputs of the embedding. -/
structure DeployBehavior where
  getCloudRes : Except String ProviderRec
  initRes : Except String Unit
  getImagesRes : Except String (List (String × String))
  addImageRes : Except String String
  genKeyRes : Except String KeyPair
  newInstanceRes : Except String String
  getInfoRes1 : Except String InstanceInfo
  saveRes1 : Except String Unit
  newVolumeRes : Except String String
  attachRes : Except String Unit
  startRes : Except String Unit
  getInfoRes2 : Except String InstanceInfo
  saveRes2 : Except String Unit
  deriving Repr

/-- The error returned by `deployInstance`, one constructor per Go
return site, carrying the message built there. -/
inductive DeployErr where
  | getCloudFailed (msg : String)
  | initFailed (msg : String)
  | getImagesFailed (msg : String)
  | addImageFailed (msg : String)
  | unsupportedRelease (msg : String)
  | genKeyFailed (msg : String)
  | newInstanceFailed (msg : String)
  | getInfoFailed (msg : String)
  | saveFailed (msg : String)
  | newVolumeFailed (msg : String)
  | attachFailed (msg : String)
  | startFailed (msg : String)
  deriving Repr, DecidableEq

/-- The result of a `deployInstance` run: the event trace, the final
instance store, and the returned value. -/
structure DeployRes where
  trace : List Ev
  db : List InstanceInfo
  result : Except DeployErr InstanceInfo
  deriving Repr

/-- The tail of `deployInstance` after the image id is resolved
(`instance.go` lines 207-265): key generation, instance creation, the
first persistence checkpoint, volume creation and attachment, start, and
the second persistence checkpoint that records the key seed. `t0` is the
trace accumulated by the image-resolution phase. -/
def deployAfterImage (instanceName : String) (b : DeployBehavior)
    (db0 : List InstanceInfo) (t0 : List Ev) (imageID : String) : DeployRes :=
  match b.genKeyRes with
  | .error e =>
      ⟨t0 ++ [.genKey], db0, .error (.genKeyFailed (wrapE "Failed to initialize Protos" e))⟩
  | .ok key =>
  match b.newInstanceRes with
  | .error e =>
      ⟨t0 ++ [.genKey, .newInstance instanceName imageID key.pub], db0,
        .error (.newInstanceFailed (wrapE "Failed to deploy Protos instance" e))⟩
  | .ok vmID =>
  match b.getInfoRes1 with
  | .error e =>
      ⟨t0 ++ [.genKey, .newInstance instanceName imageID key.pub, .getInfo vmID], db0,
        .error (.getInfoFailed (wrapE "Failed to get Protos instance info" e))⟩
  | .ok info1 =>
  let t1 := t0 ++ [.genKey, .newInstance instanceName imageID key.pub, .getInfo vmID,
    .saveInstance info1]
  match b.saveRes1 with
  | .error e =>
      ⟨t1, db0,
        .error (.saveFailed (wrapE ("Failed to save instance '" ++ instanceName ++ "'") e))⟩
  | .ok _ =>
  let db1 := storeSave db0 info1
  match b.newVolumeRes with
  | .error e =>
      ⟨t1 ++ [.newVolume instanceName 30000], db1,
        .error (.newVolumeFailed (wrapE "Failed to create data volume" e))⟩
  | .ok volumeID =>
  match b.attachRes with
  | .error e =>
      ⟨t1 ++ [.newVolume instanceName 30000, .attachVolume volumeID vmID], db1,
        .error (.attachFailed
          (wrapE ("Failed to attach volume to instance '" ++ instanceName ++ "'") e))⟩
  | .ok _ =>
  match b.startRes with
  | .error e =>
      ⟨t1 ++ [.newVolume instanceName 30000, .attachVolume volumeID vmID, .startInstance vmID],
        db1, .error (.startFailed (wrapE "Failed to start Protos instance" e))⟩
  | .ok _ =>
  match b.getInfoRes2 with
  | .error e =>
      ⟨t1 ++ [.newVolume instanceName 30000, .attachVolume volumeID vmID, .startInstance vmID,
        .getInfo vmID], db1,
        .error (.getInfoFailed (wrapE "Failed to get Protos instance info" e))⟩
  | .ok info2 =>
  let finalInfo := { info2 with keySeed := key.seed }
  let t2 := t1 ++ [.newVolume instanceName 30000, .attachVolume volumeID vmID,
    .startInstance vmID, .getInfo vmID, .saveInstance finalInfo]
  match b.saveRes2 with
  | .error e =>
      ⟨t2, db1,
        .error (.saveFailed (wrapE ("Failed to save instance '" ++ instanceName ++ "'") e))⟩
  | .ok _ => ⟨t2, storeSave db1 finalInfo, .ok finalInfo⟩

/-- `deployInstance` (`instance.go` lines 171-266): fetch the cloud
record, connect, resolve the Protos image (uploading it from the
release's hardcoded `"scaleway"` entry when absent), then run the
provisioning tail. Each failure returns immediately with the wrapped
error of its site. -/
def deployInstance (instanceName cloudName cloudLocation : String) (rel : Release)
    (b : DeployBehavior) (db0 : List InstanceInfo) : DeployRes :=
  let protosImage := "protos-" ++ rel.version
  match b.getCloudRes with
  | .error e =>
      ⟨[.getCloud cloudName], db0,
        .error (.getCloudFailed (wrapE ("Could not retrieve cloud '" ++ cloudName ++ "'") e))⟩
  | .ok provider =>
  match b.initRes with
  | .error e =>
      ⟨[.getCloud cloudName, .clientInit cloudLocation], db0,
        .error (.initFailed (wrapE ("Failed to connect to cloud provider '" ++ cloudName
          ++ "'(" ++ provider.ptype ++ ") API") e))⟩
  | .ok _ =>
  let pre := [Ev.getCloud cloudName, Ev.clientInit cloudLocation, Ev.getImages]
  match b.getImagesRes with
  | .error e =>
      ⟨pre, db0, .error (.getImagesFailed (wrapE "Failed to initialize Protos" e))⟩
  | .ok images =>
  match alookup images protosImage with
  | some id => deployAfterImage instanceName b db0 pre id
  | none =>
    match alookup rel.cloudImages "scaleway" with
    | some image =>
      match b.addImageRes with
      | .error e =>
          ⟨pre ++ [.addImage image.url image.digest rel.version], db0,
            .error (.addImageFailed (wrapE "Failed to initialize Protos" e))⟩
      | .ok id =>
          deployAfterImage instanceName b db0
            (pre ++ [.addImage image.url image.digest rel.version]) id
    | none =>
        ⟨pre, db0, .error (.unsupportedRelease
          ("Could not find a Scaleway release for Protos version '" ++ rel.version ++ "'"))⟩

/-- The outcome of every fallible call `deleteInstance` makes: the cloud
record fetch, client init, stop, the info fetch that enumerates volumes,
the instance deletion, and per-volume deletion success keyed by volume
id (a failed volume deletion is only logged, so only its success bit is
observable). -/
structure DeleteBehavior where
  getCloudRes : Except String ProviderRec
  initRes : Except String Unit
  stopRes : Except String Unit
  infoRes : Except String InstanceInfo
  delInstanceRes : Except String Unit
  delVolumeOK : String → Bool

/-- The result of a teardown, tunnel or key run: trace, final store and
returned error, if any. -/
structure ActionRes where
  trace : List Ev
  db : List InstanceInfo
  result : Except String Unit

/-- `deleteInstance` (`instance.go` lines 268-305): fetch the record and
its cloud, connect, stop the VM, fetch its info, delete the VM, then
delete every enumerated volume — logging but not aborting on a per-volume
failure — and finally remove the local record. -/
def deleteInstance (name : String) (b : DeleteBehavior)
    (db0 : List InstanceInfo) : ActionRes :=
  match storeGet db0 name with
  | none =>
      ⟨[.dbGetInstance name], db0,
        .error (wrapE ("Could not retrieve instance '" ++ name ++ "'") "NotFound")⟩
  | some inst =>
  match b.getCloudRes with
  | .error e =>
      ⟨[.dbGetInstance name, .getCloud inst.cloudName], db0,
        .error (wrapE ("Could not retrieve cloud '" ++ name ++ "'") e)⟩
  | .ok _ =>
  match b.initRes with
  | .error e =>
      ⟨[.dbGetInstance name, .getCloud inst.cloudName, .clientInit inst.location], db0,
        .error (wrapE ("Could not init cloud '" ++ name ++ "'") e)⟩
  | .ok _ =>
  let pre := [Ev.dbGetInstance name, Ev.getCloud inst.cloudName, Ev.clientInit inst.location]
  match b.stopRes with
  | .error e =>
      ⟨pre ++ [.stopInstance inst.vmID], db0,
        .error (wrapE ("Could not stop instance '" ++ name ++ "'") e)⟩
  | .ok _ =>
  match b.infoRes with
  | .error e =>
      ⟨pre ++ [.stopInstance inst.vmID, .getInfo inst.vmID], db0,
        .error (wrapE ("Failed to get details for instance '" ++ name ++ "'") e)⟩
  | .ok vmInfo =>
  match b.delInstanceRes with
  | .error e =>
      ⟨pre ++ [.stopInstance inst.vmID, .getInfo inst.vmID, .deleteInstance inst.vmID], db0,
        .error (wrapE ("Could not delete instance '" ++ name ++ "'") e)⟩
  | .ok _ =>
  let volEvs := vmInfo.volumes.map (fun v => Ev.deleteVolume v.volumeID)
  ⟨pre ++ [.stopInstance inst.vmID, .getInfo inst.vmID, .deleteInstance inst.vmID]
      ++ volEvs ++ [.dbDeleteInstance name],
    storeDelete db0 name, .ok ()⟩

/-- The ed25519 seed length in bytes. -/
def seedLength : Nat := 32

/-- Modelled from the spec: `ssh.GenerateKey` of the internal ssh package
(not under `src/`) — "produces a fresh asymmetric key pair using a
cryptographically secure source; fails only on entropy-source
exhaustion". `derive` is the deterministic public-key derivation and
`entropy` the outcome of reading the seed bytes. -/
def GenerateKey (derive : List Nat → List Nat)
    (entropy : Except String (List Nat)) : Except String KeyPair :=
  match entropy with
  | .error e => .error (wrapE "Failed to generate SSH key" e)
  | .ok s =>
      if s.length = seedLength then .ok ⟨s, derive s⟩
      else .error "Failed to generate SSH key: short entropy read"

/-- Modelled from the spec: `ssh.NewKeyFromSeed` (not under `src/`) —
"reconstructs the identical key pair from a previously stored seed; fails
with InvalidKeyMaterial if the seed length or structure is malformed". -/
def NewKeyFromSeed (derive : List Nat → List Nat)
    (seed : List Nat) : Except String KeyPair :=
  if seed.length = seedLength then .ok ⟨seed, derive seed⟩
  else .error "invalid key material"

/-- Modelled from the spec: `Key.EncodePrivateKeytoPEM` (not under
`src/`) — "serializes the private half into a standard textual container
format"; `enc` is the deterministic PEM container encoding. -/
def EncodePrivateKeytoPEM (enc : List Nat → String) (k : KeyPair) : String :=
  enc k.seed

/-- The outcome of the tunnel calls `tunnelInstance` makes: `Start`
returning the bound local port, and `Close`. -/
structure TunnelBehavior where
  startRes : Except String Nat
  closeRes : Except String Unit

/-- `tunnelInstance` (`instance.go` lines 353-390): fetch the record,
refuse an empty key seed, reconstruct the key, start the tunnel, wait for
SIGINT/SIGTERM (the blocking read of the quit channel fed by
`catchSignals`, modelled as the `waitSignal` event), then close the
tunnel exactly once and return. -/
def tunnelInstance (name : String) (derive : List Nat → List Nat)
    (b : TunnelBehavior) (db : List InstanceInfo) : ActionRes :=
  match storeGet db name with
  | none =>
      ⟨[.dbGetInstance name], db,
        .error (wrapE ("Could not retrieve instance '" ++ name ++ "'") "NotFound")⟩
  | some inst =>
  if inst.keySeed.length = 0 then
    ⟨[.dbGetInstance name], db, .error ("Instance '" ++ name ++ "' is missing its SSH key")⟩
  else
  match NewKeyFromSeed derive inst.keySeed with
  | .error _ =>
      ⟨[.dbGetInstance name], db, .error ("Instance '" ++ name ++ "' has an invalid SSH key")⟩
  | .ok _key =>
  let startEv := Ev.tunnelStart (inst.publicIP ++ ":22") "root" "localhost:8080"
  match b.startRes with
  | .error e =>
      ⟨[.dbGetInstance name, startEv], db,
        .error (wrapE "Error while creating the SSH tunnel" e)⟩
  | .ok _localPort =>
  match b.closeRes with
  | .error e =>
      ⟨[.dbGetInstance name, startEv, .waitSignal, .tunnelClose], db,
        .error (wrapE "Error while terminating the SSH tunnel" e)⟩
  | .ok _ => ⟨[.dbGetInstance name, startEv, .waitSignal, .tunnelClose], db, .ok ()⟩

/-- `keyInstance` (`instance.go` lines 392-406): fetch the record, refuse
an empty key seed, reconstruct the key, print its PEM encoding. -/
def keyInstance (name : String) (derive : List Nat → List Nat)
    (enc : List Nat → String) (db : List InstanceInfo) : ActionRes :=
  match storeGet db name with
  | none =>
      ⟨[.dbGetInstance name], db,
        .error (wrapE ("Could not retrieve instance '" ++ name ++ "'") "NotFound")⟩
  | some inst =>
  if inst.keySeed.length = 0 then
    ⟨[.dbGetInstance name], db, .error ("Instance '" ++ name ++ "' is missing its SSH key")⟩
  else
  match NewKeyFromSeed derive inst.keySeed with
  | .error _ =>
      ⟨[.dbGetInstance name], db, .error ("Instance '" ++ name ++ "' has an invalid SSH key")⟩
  | .ok key =>
      ⟨[.dbGetInstance name, .printKey (EncodePrivateKeytoPEM enc key)], db, .ok ()⟩

/-- `cloud.DigitalOcean` (`internal/cloud/cloud.go` line 15). -/
def DigitalOcean : String := "digitalocean"

/-- `cloud.Scaleway` (`internal/cloud/cloud.go` line 17). -/
def Scaleway : String := "scaleway"

/-- `cloud.SupportedProviders` (`internal/cloud/cloud.go` lines 21-23):
returns only the Scaleway provider. -/
def SupportedProviders : List String := [Scaleway]

/-- Which provider implementation a factory call selected. -/
inductive ClientImpl where
  | digitalOceanClient
  | scalewayClient
  deriving Repr, DecidableEq

/-- Modelled from the spec: `newDigitalOceanClient` (not under `src/`) —
the per-provider constructor selected by the string-keyed factory. -/
def newDigitalOceanClient : Except String ClientImpl := .ok .digitalOceanClient

/-- Modelled from the spec: `newScalewayClient` (not under `src/`) — the
per-provider constructor selected by the string-keyed factory. -/
def newScalewayClient : Except String ClientImpl := .ok .scalewayClient

/-- `cloud.NewClient` (`internal/cloud/cloud.go` lines 38-53): the
string-keyed factory, switching on the provider name and defaulting to
the unsupported-cloud error. -/
def NewClient (cloud : String) : Except String ClientImpl :=
  if cloud = DigitalOcean then newDigitalOceanClient
  else if cloud = Scaleway then newScalewayClient
  else .error ("Cloud '" ++ cloud ++ "' not supported")

/-- The outcome of the calls `infoCloudProvider` makes: the cloud-record
fetch, the provider's supported locations, and client init. -/
structure InfoBehavior where
  getCloudRes : Except String ProviderRec
  locations : List String
  initRes : Except String Unit

/-- `Init`'s result as the Go `err` variable holds it at the line-153
check: `nil` on success. -/
def errVar : Except String Unit → Option String
  | .ok _ => none
  | .error e => some e

/-- One printed line of `infoCloudProvider`, a constructor per
`fmt.Printf` call site. -/
inductive OutLine where
  | nameLine (n : String)
  | typeLine (t : String)
  | locationsLine (locs : String)
  | statusNotOK (e : String)
  | statusOK
  deriving Repr, DecidableEq

/-- The text each `fmt.Printf` call site renders. -/
def OutLine.render : OutLine → String
  | .nameLine n => "Name: " ++ n
  | .typeLine t => "Type: " ++ t
  | .locationsLine locs => "Supported locations: " ++ locs
  | .statusNotOK e => "Status: NOT OK (" ++ e ++ ")"
  | .statusOK => "Status: OK - API reachable"

/-- `infoCloudProvider` (`cmd/protos/cloud.go` lines 139-159): fetch the
cloud record, init the client against the first supported location,
return the wrapped error early if init failed, otherwise print the info
lines and then a status line chosen by re-testing the same `err`
variable. Returns the printed lines and the result. -/
def infoCloudProvider (name : String) (b : InfoBehavior) :
    List OutLine × Except String Unit :=
  match b.getCloudRes with
  | .error e =>
      ([], .error (wrapE ("Could not retrieve cloud '" ++ name ++ "'") e))
  | .ok cl =>
  let locations := b.locations
  let err := errVar b.initRes
  match err with
  | some e =>
      ([], .error (wrapE ("Failed to connect to cloud provider '" ++ name
        ++ "'(" ++ cl.ptype ++ ") API") e))
  | none =>
  let infoLines := [OutLine.nameLine cl.name, OutLine.typeLine cl.ptype,
    OutLine.locationsLine (String.intercalate " | " locations)]
  let statusLine :=
    match err with
    | some e => OutLine.statusNotOK e
    | none => OutLine.statusOK
  (infoLines ++ [statusLine], .ok ())

/-!  Specification-side descriptions of the provisioning order, used to
state the temporal claims. -/

/-- The operation kinds of the provisioning tail that follows image
resolution, in the spec's fixed order, truncated at the first failing
step: KeyReady → InstanceCreated (with its checkpoint) → VolumeCreated →
VolumeAttached → Started → Recorded. -/
def specStepsFromKey (b : DeployBehavior) : List OpKind :=
  [.genKey] ++
  (if !(exOk b.genKeyRes) then [] else
  [.newInstance] ++
  (if !(exOk b.newInstanceRes) then [] else
  [.getInfo] ++
  (if !(exOk b.getInfoRes1) then [] else
  [.saveInstance] ++
  (if !(exOk b.saveRes1) then [] else
  [.newVolume] ++
  (if !(exOk b.newVolumeRes) then [] else
  [.attachVolume] ++
  (if !(exOk b.attachRes) then [] else
  [.startInstance] ++
  (if !(exOk b.startRes) then [] else
  [.getInfo] ++
  (if !(exOk b.getInfoRes2) then [] else
  [.saveInstance]))))))))

/-- The spec's provisioning state machine (§4.3) as the list of operation
kinds it performs: strictly ordered transitions, each taken only if the
previous step succeeded, with the image uploaded exactly when it is
absent from the account and the release has a `"scaleway"` entry. -/
def specDeployKinds (b : DeployBehavior) (rel : Release) : List OpKind :=
  [.getCloud] ++
  (if !(exOk b.getCloudRes) then [] else
  [.clientInit] ++
  (if !(exOk b.initRes) then [] else
  [.getImages] ++
  (match b.getImagesRes with
   | .error _ => []
   | .ok images =>
     match alookup images ("protos-" ++ rel.version) with
     | some _ => specStepsFromKey b
     | none =>
       match alookup rel.cloudImages "scaleway" with
       | some _ => [.addImage] ++ (if !(exOk b.addImageRes) then [] else specStepsFromKey b)
       | none => [])))

/-- Whether the run takes the image-upload branch: the image lookup
succeeded, the image is absent, and the release has a `"scaleway"` entry. -/
def withUpload (b : DeployBehavior) (rel : Release) : Bool :=
  match b.getImagesRes with
  | .error _ => false
  | .ok images =>
      (alookup images ("protos-" ++ rel.version)).isNone
        && (alookup rel.cloudImages "scaleway").isSome

/-- The operation kinds of a fully successful deployment, with or
without the image upload. -/
def deployKindsFull (upload : Bool) : List OpKind :=
  [.getCloud, .clientInit, .getImages] ++ (if upload then [.addImage] else [])
    ++ [.genKey, .newInstance, .getInfo, .saveInstance, .newVolume, .attachVolume,
        .startInstance, .getInfo, .saveInstance]

theorem deployAfterImage_kinds (n : String) (b : DeployBehavior)
    (db0 : List InstanceInfo) (t0 : List Ev) (id : String) :
    (deployAfterImage n b db0 t0 id).trace.map Ev.kind
      = t0.map Ev.kind ++ specStepsFromKey b := by
  unfold deployAfterImage specStepsFromKey
  cases hgk : b.genKeyRes <;> cases hni : b.newInstanceRes <;>
    cases hi1 : b.getInfoRes1 <;> cases hs1 : b.saveRes1 <;>
    cases hnv : b.newVolumeRes <;> cases hav : b.attachRes <;>
    cases hst : b.startRes <;> cases hi2 : b.getInfoRes2 <;>
    cases hs2 : b.saveRes2 <;> simp [exOk, Ev.kind]

/-!  Store lemmas. -/

theorem storeGet_save_self (db : List InstanceInfo) (rec : InstanceInfo) :
    storeGet (storeSave db rec) rec.name = some rec := by
  induction db with
  | nil => simp [storeGet, storeSave]
  | cons i rest ih =>
      by_cases h : i.name = rec.name
      · simpa [storeGet, storeSave, h] using ih
      · simpa [storeGet, storeSave, h] using ih

theorem storeGet_delete_self (db : List InstanceInfo) (n : String) :
    storeGet (storeDelete db n) n = none := by
  induction db with
  | nil => simp [storeGet, storeDelete]
  | cons i rest ih =>
      by_cases h : i.name = n
      · simpa [storeGet, storeDelete, h] using ih
      · simpa [storeGet, storeDelete, h] using ih

theorem mem_storeSave (db : List InstanceInfo) (rec i : InstanceInfo) :
    i ∈ storeSave db rec → i ∈ db ∨ i = rec := by
  intro h
  rcases List.mem_append.mp h with h1 | h2
  · exact Or.inl (List.mem_of_mem_filter h1)
  · exact Or.inr (List.mem_singleton.mp h2)

/-!  Characterizations of the provisioning tail, used by the
persistence claims. -/

theorem deployAfterImage_save_mem (n : String) (b : DeployBehavior)
    (db0 : List InstanceInfo) (t0 : List Ev) (id : String) (i : InstanceInfo) :
    Ev.saveInstance i ∈ (deployAfterImage n b db0 t0 id).trace →
      Ev.saveInstance i ∈ t0
      ∨ ((∃ vmID, b.newInstanceRes = .ok vmID) ∧ b.getInfoRes1 = .ok i)
      ∨ (∃ key i2, b.genKeyRes = .ok key ∧ b.getInfoRes2 = .ok i2
          ∧ b.startRes = .ok () ∧ i = { i2 with keySeed := key.seed }) := by
  intro h
  simp only [deployAfterImage] at h
  repeat' split at h
  all_goals simp_all
  all_goals tauto

theorem deployAfterImage_db_char (n : String) (b : DeployBehavior)
    (db0 : List InstanceInfo) (t0 : List Ev) (id : String) :
    (deployAfterImage n b db0 t0 id).db = db0
    ∨ (∃ i1, b.getInfoRes1 = .ok i1 ∧ (∃ vmID, b.newInstanceRes = .ok vmID)
        ∧ (deployAfterImage n b db0 t0 id).db = storeSave db0 i1)
    ∨ (∃ i1 key i2 vmID, b.getInfoRes1 = .ok i1 ∧ b.genKeyRes = .ok key
        ∧ b.getInfoRes2 = .ok i2 ∧ b.startRes = .ok () ∧ b.newInstanceRes = .ok vmID
        ∧ Ev.startInstance vmID ∈ (deployAfterImage n b db0 t0 id).trace
        ∧ (deployAfterImage n b db0 t0 id).db
            = storeSave (storeSave db0 i1) { i2 with keySeed := key.seed }) := by
  unfold deployAfterImage
  repeat' split
  all_goals simp_all
  all_goals tauto

theorem deployAfterImage_result_ok (n : String) (b : DeployBehavior)
    (db0 : List InstanceInfo) (t0 : List Ev) (id : String) (fin : InstanceInfo) :
    (deployAfterImage n b db0 t0 id).result = .ok fin →
      ∃ key i1 i2, b.genKeyRes = .ok key ∧ b.getInfoRes1 = .ok i1
        ∧ b.getInfoRes2 = .ok i2 ∧ b.startRes = .ok ()
        ∧ fin = { i2 with keySeed := key.seed }
        ∧ (deployAfterImage n b db0 t0 id).db = storeSave (storeSave db0 i1) fin := by
  intro h
  simp only [deployAfterImage] at h ⊢
  repeat' split at h
  all_goals simp_all

theorem deployAfterImage_result_not_unsupported (n : String) (b : DeployBehavior)
    (db0 : List InstanceInfo) (t0 : List Ev) (id : String) (m : String) :
    (deployAfterImage n b db0 t0 id).result ≠ .error (.unsupportedRelease m) := by
  unfold deployAfterImage
  repeat' split
  all_goals simp

theorem deployAfterImage_mem_addImage (n : String) (b : DeployBehavior)
    (db0 : List InstanceInfo) (t0 : List Ev) (id : String) (u d v : String) :
    Ev.addImage u d v ∈ (deployAfterImage n b db0 t0 id).trace →
      Ev.addImage u d v ∈ t0 := by
  intro h
  simp only [deployAfterImage] at h
  repeat' split at h
  all_goals simp_all

theorem deployAfterImage_start_mem (n : String) (b : DeployBehavior)
    (db0 : List InstanceInfo) (t0 : List Ev) (id : String) (v : String) :
    Ev.startInstance v ∈ (deployAfterImage n b db0 t0 id).trace →
      Ev.startInstance v ∈ t0 ∨ b.newInstanceRes = .ok v := by
  intro h
  simp only [deployAfterImage] at h
  repeat' split at h
  all_goals simp_all
  all_goals tauto

theorem deployAfterImage_save1_mem (n : String) (b : DeployBehavior)
    (db0 : List InstanceInfo) (t0 : List Ev) (id : String)
    (key : KeyPair) (vmID : String) (i1 : InstanceInfo)
    (hgk : b.genKeyRes = .ok key) (hni : b.newInstanceRes = .ok vmID)
    (hi1 : b.getInfoRes1 = .ok i1) :
    Ev.saveInstance i1 ∈ (deployAfterImage n b db0 t0 id).trace := by
  unfold deployAfterImage
  repeat' split
  all_goals simp_all

theorem prefix_append_both {α : Type} (pre l1 l2 : List α) (h : l1 <+: l2) :
    pre ++ l1 <+: pre ++ l2 := by
  obtain ⟨t, ht⟩ := h
  exact ⟨t, by rw [List.append_assoc, ht]⟩

/-- The operation kinds of a fully successful provisioning tail. -/
def tailKinds : List OpKind :=
  [.genKey, .newInstance, .getInfo, .saveInstance, .newVolume, .attachVolume,
   .startInstance, .getInfo, .saveInstance]

theorem specStepsFromKey_le (b : DeployBehavior) :
    specStepsFromKey b <+: tailKinds := by
  unfold specStepsFromKey tailKinds
  repeat' split
  all_goals exact ⟨_, rfl⟩

theorem specDeployKinds_le (b : DeployBehavior) (rel : Release) :
    specDeployKinds b rel <+: deployKindsFull (withUpload b rel) := by
  unfold specDeployKinds deployKindsFull withUpload
  repeat' split
  all_goals simp_all
  all_goals try exact ⟨_, rfl⟩
  all_goals
    first
    | exact prefix_append_both _ _ _ (specStepsFromKey_le b)
    | exact specStepsFromKey_le b

/-- The trace of `deployInstance` realizes the spec's state machine:
its operation kinds are exactly the spec's strictly ordered,
truncated-at-first-failure step list. -/
theorem deployInstance_kinds (n cn loc : String) (rel : Release) (b : DeployBehavior)
    (db0 : List InstanceInfo) :
    (deployInstance n cn loc rel b db0).trace.map Ev.kind = specDeployKinds b rel := by
  unfold deployInstance specDeployKinds
  repeat' split
  all_goals simp_all [deployAfterImage_kinds, exOk, Ev.kind]

/-- Every run of `deployInstance` either hands over to the provisioning
tail with an image-phase trace `t0` free of saves and starts, or stops in
the image phase with the store untouched and an error; in both cases an
`addImage` event pins down the absent-image condition and the release's
`"scaleway"` entry. -/
theorem deployInstance_cases (n cn loc : String) (rel : Release) (b : DeployBehavior)
    (db0 : List InstanceInfo) :
    (∃ t0 id, deployInstance n cn loc rel b db0 = deployAfterImage n b db0 t0 id
       ∧ (∀ i, Ev.saveInstance i ∉ t0) ∧ (∀ v, Ev.startInstance v ∉ t0)
       ∧ (∀ u d v, Ev.addImage u d v ∈ t0 →
            ∃ images, b.getImagesRes = .ok images
              ∧ alookup images ("protos-" ++ rel.version) = none
              ∧ alookup rel.cloudImages "scaleway" = some ⟨u, d⟩ ∧ v = rel.version))
    ∨ ((deployInstance n cn loc rel b db0).db = db0
       ∧ (∃ e, (deployInstance n cn loc rel b db0).result = .error e)
       ∧ (∀ i, Ev.saveInstance i ∉ (deployInstance n cn loc rel b db0).trace)
       ∧ (∀ v, Ev.startInstance v ∉ (deployInstance n cn loc rel b db0).trace)
       ∧ (∀ u d v, Ev.addImage u d v ∈ (deployInstance n cn loc rel b db0).trace →
            ∃ images, b.getImagesRes = .ok images
              ∧ alookup images ("protos-" ++ rel.version) = none
              ∧ alookup rel.cloudImages "scaleway" = some ⟨u, d⟩ ∧ v = rel.version)) := by
  cases hgc : b.getCloudRes with
  | error e => right; simp [deployInstance, hgc]
  | ok provider =>
  cases hini : b.initRes with
  | error e => right; simp [deployInstance, hgc, hini]
  | ok u =>
  cases hgi : b.getImagesRes with
  | error e => right; simp [deployInstance, hgc, hini, hgi]
  | ok images =>
  cases hl : alookup images ("protos-" ++ rel.version) with
  | some id =>
      left
      refine ⟨[Ev.getCloud cn, Ev.clientInit loc, Ev.getImages], id,
        by simp [deployInstance, hgc, hini, hgi, hl], by simp, by simp, by simp⟩
  | none =>
  cases hsw : alookup rel.cloudImages "scaleway" with
  | none => right; simp [deployInstance, hgc, hini, hgi, hl, hsw]
  | some image =>
  obtain ⟨iu, idg⟩ := image
  cases hai : b.addImageRes with
  | error e =>
      right
      refine ⟨by simp [deployInstance, hgc, hini, hgi, hl, hsw, hai],
        by simp [deployInstance, hgc, hini, hgi, hl, hsw, hai],
        by simp [deployInstance, hgc, hini, hgi, hl, hsw, hai],
        by simp [deployInstance, hgc, hini, hgi, hl, hsw, hai], ?_⟩
      intro u d v hm
      simp [deployInstance, hgc, hini, hgi, hl, hsw, hai] at hm
      obtain ⟨hu, hd, hv⟩ := hm
      subst hu; subst hd; subst hv
      exact ⟨images, rfl, hl, rfl, rfl⟩
  | ok id =>
      left
      refine ⟨[Ev.getCloud cn, Ev.clientInit loc, Ev.getImages,
          Ev.addImage iu idg rel.version], id,
        by simp [deployInstance, hgc, hini, hgi, hl, hsw, hai],
        by simp, by simp, ?_⟩
      intro u d v hm
      simp at hm
      obtain ⟨hu, hd, hv⟩ := hm
      subst hu; subst hd; subst hv
      exact ⟨images, rfl, hl, rfl, rfl⟩

/-- The image-resolution phase succeeds: the image listing worked and
either the image is already in the account or the upload from the
release's `"scaleway"` entry succeeded. -/
def imagePhaseOk (b : DeployBehavior) (rel : Release) : Prop :=
  ∃ images, b.getImagesRes = .ok images
    ∧ ((alookup images ("protos-" ++ rel.version)).isSome = true
       ∨ ((alookup rel.cloudImages "scaleway").isSome = true ∧ exOk b.addImageRes = true))

theorem deployInstance_tail (n cn loc : String) (rel : Release) (b : DeployBehavior)
    (db0 : List InstanceInfo)
    (hgc : exOk b.getCloudRes = true) (hini : exOk b.initRes = true)
    (himg : imagePhaseOk b rel) :
    ∃ t0 id, deployInstance n cn loc rel b db0 = deployAfterImage n b db0 t0 id := by
  obtain ⟨images, hgi, hrest⟩ := himg
  cases hgc' : b.getCloudRes with
  | error e => rw [hgc'] at hgc; simp [exOk] at hgc
  | ok provider =>
  cases hini' : b.initRes with
  | error e => rw [hini'] at hini; simp [exOk] at hini
  | ok u =>
  cases hl : alookup images ("protos-" ++ rel.version) with
  | some id =>
      exact ⟨[Ev.getCloud cn, Ev.clientInit loc, Ev.getImages], id,
        by simp [deployInstance, hgc', hini', hgi, hl]⟩
  | none =>
      rw [hl] at hrest
      simp at hrest
      obtain ⟨hsw, hai⟩ := hrest
      cases hsw' : alookup rel.cloudImages "scaleway" with
      | none => rw [hsw'] at hsw; simp at hsw
      | some image =>
      cases hai' : b.addImageRes with
      | error e => rw [hai'] at hai; simp [exOk] at hai
      | ok id =>
          exact ⟨[Ev.getCloud cn, Ev.clientInit loc, Ev.getImages,
              Ev.addImage image.url image.digest rel.version], id,
            by simp [deployInstance, hgc', hini', hgi, hl, hsw', hai']⟩

theorem deployAfterImage_volume_fail (n : String) (b : DeployBehavior)
    (db0 : List InstanceInfo) (t0 : List Ev) (id : String)
    (key : KeyPair) (vmID : String) (i1 : InstanceInfo)
    (hgk : b.genKeyRes = .ok key) (hni : b.newInstanceRes = .ok vmID)
    (hi1 : b.getInfoRes1 = .ok i1) (hs1 : b.saveRes1 = .ok ())
    (hfail : (∃ e, b.newVolumeRes = .error e)
      ∨ (∃ volID e, b.newVolumeRes = .ok volID ∧ b.attachRes = .error e)) :
    (deployAfterImage n b db0 t0 id).db = storeSave db0 i1
    ∧ ∃ er, (deployAfterImage n b db0 t0 id).result = .error er := by
  rcases hfail with ⟨e, hnv⟩ | ⟨volID, e, hnv, hav⟩
  · simp [deployAfterImage, hgk, hni, hi1, hs1, hnv]
  · simp [deployAfterImage, hgk, hni, hi1, hs1, hnv, hav]

/-- C2: Strict provisioning order.  The trace of every `deployInstance`
run realizes the spec's state machine exactly: its operation kinds equal
the strictly ordered step list truncated at the first failing step (so no
later operation is invoked once an earlier one fails), that list is a
prefix of the canonical full order — image lookup, image upload exactly
when the account lacks the `"protos-" + version` image, key generation,
`NewInstance`, `NewVolume`, `AttachVolume`, `StartInstance` — and every
`AddImage` event carries the release's recorded URL and digest and can
only occur when the image was absent, hence (by the order) before any
`NewInstance` is attempted. -/
theorem deploy_strict_order (n cn loc : String) (rel : Release) (b : DeployBehavior)
    (db0 : List InstanceInfo) :
    ((deployInstance n cn loc rel b db0).trace.map Ev.kind = specDeployKinds b rel)
    ∧ ((deployInstance n cn loc rel b db0).trace.map Ev.kind
        <+: deployKindsFull (withUpload b rel))
    ∧ (∀ u d v, Ev.addImage u d v ∈ (deployInstance n cn loc rel b db0).trace →
        ∃ images, b.getImagesRes = .ok images
          ∧ alookup images ("protos-" ++ rel.version) = none
          ∧ alookup rel.cloudImages "scaleway" = some ⟨u, d⟩ ∧ v = rel.version) := by
  refine ⟨deployInstance_kinds n cn loc rel b db0, ?_, ?_⟩
  · rw [deployInstance_kinds]
    exact specDeployKinds_le b rel
  · intro u d v hm
    rcases deployInstance_cases n cn loc rel b db0 with
      ⟨t0, id, heq, _, _, haddi⟩ | ⟨_, _, _, _, haddi⟩
    · rw [heq] at hm
      exact haddi u d v (deployAfterImage_mem_addImage n b db0 t0 id u d v hm)
    · exact haddi u d v hm

/-- C1: Two-checkpoint persistence.  Under the provider contract that the
post-creation snapshot carries the fresh vmID and no key seed, every
`deployInstance` run saves the instance record right after instance
creation with an empty key seed, writes the generated key seed to the
stored record only in the checkpoint that follows a successful
`StartInstance`, and if `StartInstance` fails or is never reached no
stored record ever contains the generated key seed. -/
theorem deploy_two_checkpoints (n cn loc : String) (rel : Release) (b : DeployBehavior)
    (db0 : List InstanceInfo) (key : KeyPair)
    (hkey : b.genKeyRes = .ok key)
    (hseed : key.seed ≠ [])
    (hinfo1 : ∀ i1 vmID, b.newInstanceRes = .ok vmID → b.getInfoRes1 = .ok i1 →
       i1.keySeed = [] ∧ i1.vmID = vmID)
    (hdb0 : ∀ i ∈ db0, i.keySeed ≠ key.seed) :
    (∀ i, Ev.saveInstance i ∈ (deployInstance n cn loc rel b db0).trace →
       i.keySeed ≠ [] →
       b.startRes = .ok () ∧ ∃ i2, b.getInfoRes2 = .ok i2
         ∧ i = { i2 with keySeed := key.seed })
    ∧ (∀ vmID i1, exOk b.getCloudRes = true → exOk b.initRes = true →
        imagePhaseOk b rel → b.newInstanceRes = .ok vmID → b.getInfoRes1 = .ok i1 →
        Ev.saveInstance i1 ∈ (deployInstance n cn loc rel b db0).trace
          ∧ i1.keySeed = [] ∧ i1.vmID = vmID)
    ∧ (((∃ e, b.startRes = .error e)
        ∨ (∀ v, Ev.startInstance v ∉ (deployInstance n cn loc rel b db0).trace)) →
        ∀ i ∈ (deployInstance n cn loc rel b db0).db, i.keySeed ≠ key.seed)
    ∧ (∀ fin, (deployInstance n cn loc rel b db0).result = .ok fin →
        fin.keySeed = key.seed
          ∧ storeGet (deployInstance n cn loc rel b db0).db fin.name = some fin) := by
  refine ⟨?_, ?_, ?_, ?_⟩
  · -- a save with a non-empty seed is the post-start checkpoint
    intro i hm hne
    rcases deployInstance_cases n cn loc rel b db0 with
      ⟨t0, id, heq, hnosave, _, _⟩ | ⟨_, _, hnosave, _, _⟩
    · rw [heq] at hm
      rcases deployAfterImage_save_mem n b db0 t0 id i hm with
        h0 | ⟨⟨vmID, hni⟩, hi1⟩ | ⟨key', i2, hgk', hi2, hst, hieq⟩
      · exact absurd h0 (hnosave i)
      · exact absurd (hinfo1 i vmID hni hi1).1 hne
      · rw [hkey] at hgk'
        obtain rfl : key' = key := by injection hgk' with h; exact h.symm
        exact ⟨hst, i2, hi2, hieq⟩
    · exact absurd hm (hnosave i)
  · -- the first checkpoint happens and carries vmID but no seed
    intro vmID i1 hgc hini himg hni hi1
    obtain ⟨t0, id, heq⟩ := deployInstance_tail n cn loc rel b db0 hgc hini himg
    rw [heq]
    exact ⟨deployAfterImage_save1_mem n b db0 t0 id key vmID i1 hkey hni hi1,
      (hinfo1 i1 vmID hni hi1).1, (hinfo1 i1 vmID hni hi1).2⟩
  · -- start failed or never ran: no stored record holds the seed
    intro hcond i hidb
    rcases deployInstance_cases n cn loc rel b db0 with
      ⟨t0, id, heq, _, hnostart, _⟩ | ⟨hdb, _, _, _, _⟩
    · rw [heq] at hidb hcond
      rcases deployAfterImage_db_char n b db0 t0 id with
        hdb | ⟨i1, hi1, ⟨vmID, hni⟩, hdb⟩ | ⟨i1, key', i2, vmID, hi1, hgk', hi2, hst, hni, hstm, hdb⟩
      · rw [hdb] at hidb
        exact hdb0 i hidb
      · rw [hdb] at hidb
        rcases mem_storeSave db0 i1 i hidb with h | rfl
        · exact hdb0 i h
        · rw [(hinfo1 i vmID hni hi1).1]
          exact fun h => hseed h.symm
      · rcases hcond with ⟨e, hst'⟩ | hnost
        · rw [hst] at hst'
          exact absurd hst' (by simp)
        · exact absurd hstm (hnost vmID)
    · rw [hdb] at hidb
      exact hdb0 i hidb
  · -- full success: the final record carries the seed and is stored
    intro fin hres
    rcases deployInstance_cases n cn loc rel b db0 with
      ⟨t0, id, heq, _, _, _⟩ | ⟨_, ⟨e, herr⟩, _, _, _⟩
    · rw [heq] at hres ⊢
      obtain ⟨key', i1, i2, hgk', hi1, hi2, hst, hfin, hdb⟩ :=
        deployAfterImage_result_ok n b db0 t0 id fin hres
      rw [hkey] at hgk'
      obtain rfl : key' = key := by injection hgk' with h; exact h.symm
      subst hfin
      rw [hdb]
      exact ⟨rfl, storeGet_save_self _ _⟩
    · rw [herr] at hres
      exact absurd hres (by simp)

theorem exOk_ok {ε α : Type} (x : Except ε α) (h : exOk x = true) : ∃ v, x = .ok v := by
  cases x with
  | error e => simp [exOk] at h
  | ok v => exact ⟨v, rfl⟩

/-- C3: Best-effort teardown.  `deleteInstance` runs stop, info fetch,
instance deletion, per-volume deletion and local-record removal in that
order; a failing stop, info fetch or instance deletion aborts with the
local record left intact and no volume or record deletion attempted,
while per-volume failures never abort: whatever the per-volume outcomes,
every enumerated volume gets a deletion call and the local record is
removed last. -/
theorem delete_best_effort (n : String) (b : DeleteBehavior) (db0 : List InstanceInfo)
    (inst : InstanceInfo)
    (hget : storeGet db0 n = some inst)
    (hgc : exOk b.getCloudRes = true) (hini : exOk b.initRes = true) :
    ((∃ e, b.stopRes = .error e) →
       (deleteInstance n b db0).db = db0
       ∧ storeGet (deleteInstance n b db0).db n = some inst
       ∧ (∃ e, (deleteInstance n b db0).result = .error e)
       ∧ (∀ v, Ev.deleteVolume v ∉ (deleteInstance n b db0).trace)
       ∧ Ev.dbDeleteInstance n ∉ (deleteInstance n b db0).trace)
    ∧ ((b.stopRes = .ok () ∧ ∃ e, b.infoRes = .error e) →
       (deleteInstance n b db0).db = db0
       ∧ storeGet (deleteInstance n b db0).db n = some inst
       ∧ (∃ e, (deleteInstance n b db0).result = .error e)
       ∧ (∀ v, Ev.deleteVolume v ∉ (deleteInstance n b db0).trace)
       ∧ Ev.dbDeleteInstance n ∉ (deleteInstance n b db0).trace)
    ∧ ((b.stopRes = .ok () ∧ (∃ vi, b.infoRes = .ok vi)
          ∧ (∃ e, b.delInstanceRes = .error e)) →
       (deleteInstance n b db0).db = db0
       ∧ storeGet (deleteInstance n b db0).db n = some inst
       ∧ (∃ e, (deleteInstance n b db0).result = .error e)
       ∧ (∀ v, Ev.deleteVolume v ∉ (deleteInstance n b db0).trace)
       ∧ Ev.dbDeleteInstance n ∉ (deleteInstance n b db0).trace)
    ∧ (∀ vmInfo, b.stopRes = .ok () → b.infoRes = .ok vmInfo →
        b.delInstanceRes = .ok () →
        (deleteInstance n b db0).trace
          = [.dbGetInstance n, .getCloud inst.cloudName, .clientInit inst.location,
             .stopInstance inst.vmID, .getInfo inst.vmID, .deleteInstance inst.vmID]
            ++ vmInfo.volumes.map (fun v => Ev.deleteVolume v.volumeID)
            ++ [.dbDeleteInstance n]
        ∧ (∀ v ∈ vmInfo.volumes,
             Ev.deleteVolume v.volumeID ∈ (deleteInstance n b db0).trace)
        ∧ (deleteInstance n b db0).db = storeDelete db0 n
        ∧ storeGet (deleteInstance n b db0).db n = none
        ∧ (deleteInstance n b db0).result = .ok ()) := by
  obtain ⟨p, hgc'⟩ := exOk_ok _ hgc
  obtain ⟨uu, hini'⟩ := exOk_ok _ hini
  refine ⟨?_, ?_, ?_, ?_⟩
  · rintro ⟨e, hstop⟩
    simp [deleteInstance, hget, hgc', hini', hstop]
  · rintro ⟨hstop, e, hinfo⟩
    simp [deleteInstance, hget, hgc', hini', hstop, hinfo]
  · rintro ⟨hstop, ⟨vi, hinfo⟩, e, hdel⟩
    simp [deleteInstance, hget, hgc', hini', hstop, hinfo, hdel]
  · intro vmInfo hstop hinfo hdel
    refine ⟨by simp [deleteInstance, hget, hgc', hini', hstop, hinfo, hdel], ?_,
      by simp [deleteInstance, hget, hgc', hini', hstop, hinfo, hdel],
      by simp [deleteInstance, hget, hgc', hini', hstop, hinfo, hdel,
        storeGet_delete_self],
      by simp [deleteInstance, hget, hgc', hini', hstop, hinfo, hdel]⟩
    intro v hv
    have htr : (deleteInstance n b db0).trace
        = [Ev.dbGetInstance n, Ev.getCloud inst.cloudName, Ev.clientInit inst.location,
           Ev.stopInstance inst.vmID, Ev.getInfo inst.vmID, Ev.deleteInstance inst.vmID]
          ++ vmInfo.volumes.map (fun v => Ev.deleteVolume v.volumeID)
          ++ [Ev.dbDeleteInstance n] := by
      simp [deleteInstance, hget, hgc', hini', hstop, hinfo, hdel]
    rw [htr]
    simp only [List.mem_append]
    exact Or.inl (Or.inr (List.mem_map_of_mem _ hv))

/-- C5: Partial state on volume failure.  If `NewVolume` or
`AttachVolume` fails, `deployInstance` returns the error with no
rollback: the store still holds the record saved at the first checkpoint
— valid vmID, no volumes, no key seed — and a subsequent `deleteInstance`
on that record succeeds and removes it. -/
theorem deploy_partial_volume_failure (n cn loc : String) (rel : Release)
    (b : DeployBehavior) (d : DeleteBehavior) (db0 : List InstanceInfo)
    (key : KeyPair) (vmID : String) (i1 : InstanceInfo)
    (hgc : exOk b.getCloudRes = true) (hini : exOk b.initRes = true)
    (himg : imagePhaseOk b rel)
    (hgk : b.genKeyRes = .ok key)
    (hni : b.newInstanceRes = .ok vmID)
    (hi1 : b.getInfoRes1 = .ok i1)
    (hs1 : b.saveRes1 = .ok ())
    (hname : i1.name = n) (hvm : i1.vmID = vmID)
    (hseed : i1.keySeed = []) (hvols : i1.volumes = [])
    (hfail : (∃ e, b.newVolumeRes = .error e)
      ∨ (∃ volID e, b.newVolumeRes = .ok volID ∧ b.attachRes = .error e))
    (hd1 : exOk d.getCloudRes = true) (hd2 : exOk d.initRes = true)
    (hd3 : d.stopRes = .ok ()) (hd4 : ∃ vi, d.infoRes = .ok vi)
    (hd5 : d.delInstanceRes = .ok ()) :
    (∃ er, (deployInstance n cn loc rel b db0).result = .error er)
    ∧ storeGet (deployInstance n cn loc rel b db0).db n = some i1
    ∧ i1.vmID = vmID ∧ i1.volumes = []
    ∧ (deleteInstance n d (deployInstance n cn loc rel b db0).db).result = .ok ()
    ∧ storeGet (deleteInstance n d (deployInstance n cn loc rel b db0).db).db n
        = none := by
  obtain ⟨t0, id, heq⟩ := deployInstance_tail n cn loc rel b db0 hgc hini himg
  obtain ⟨hdb, er, hres⟩ :=
    deployAfterImage_volume_fail n b db0 t0 id key vmID i1 hgk hni hi1 hs1 hfail
  rw [heq]
  have hstore : storeGet (deployAfterImage n b db0 t0 id).db n = some i1 := by
    rw [hdb, ← hname]
    exact storeGet_save_self db0 i1
  obtain ⟨p, hd1'⟩ := exOk_ok _ hd1
  obtain ⟨uu, hd2'⟩ := exOk_ok _ hd2
  obtain ⟨vi, hd4'⟩ := hd4
  refine ⟨⟨er, hres⟩, hstore, hvm, hvols, ?_, ?_⟩
  · simp [deleteInstance, hstore, hd1', hd2', hd3, hd4', hd5]
  · simp [deleteInstance, hstore, hd1', hd2', hd3, hd4', hd5, storeGet_delete_self]

/-- C6: Signal-driven shutdown.  In every `tunnelInstance` run that
successfully starts the tunnel, the arrival of SIGINT/SIGTERM (the
blocking wait on the quit channel) is followed by exactly one `Close` of
the tunnel, which is the last tunnel action before the function
returns. -/
theorem tunnel_signal_close (n : String) (derive : List Nat → List Nat)
    (b : TunnelBehavior) (db : List InstanceInfo) (inst : InstanceInfo) (p : Nat)
    (hget : storeGet db n = some inst)
    (hlen : inst.keySeed.length = seedLength)
    (hstart : b.startRes = .ok p) :
    (tunnelInstance n derive b db).trace
      = [.dbGetInstance n,
         .tunnelStart (inst.publicIP ++ ":22") "root" "localhost:8080",
         .waitSignal, .tunnelClose]
    ∧ (tunnelInstance n derive b db).trace.count Ev.tunnelClose = 1
    ∧ (tunnelInstance n derive b db).trace.getLast? = some Ev.tunnelClose := by
  have hne : inst.keySeed.length ≠ 0 := by rw [hlen]; simp [seedLength]
  have htr : (tunnelInstance n derive b db).trace
      = [.dbGetInstance n,
         .tunnelStart (inst.publicIP ++ ":22") "root" "localhost:8080",
         .waitSignal, .tunnelClose] := by
    cases hcl : b.closeRes with
    | error e =>
        simp [tunnelInstance, hget, NewKeyFromSeed, hlen, hstart, hcl, seedLength]
    | ok u =>
        simp [tunnelInstance, hget, NewKeyFromSeed, hlen, hstart, hcl, seedLength]
  refine ⟨htr, ?_, ?_⟩ <;> rw [htr] <;> simp [List.count_cons]

/-- C7: Key-seed precondition.  A stored record with an empty key seed
makes both `tunnelInstance` and `keyInstance` fail with the
missing-SSH-key error before any key reconstruction, tunnel or key
printing is attempted, and a tunnel start or a key print can only happen
when the record's seed is non-empty and reconstructs successfully. -/
theorem key_seed_precondition (n : String) (derive : List Nat → List Nat)
    (enc : List Nat → String) (b : TunnelBehavior) (db : List InstanceInfo)
    (inst : InstanceInfo) (hget : storeGet db n = some inst) :
    (inst.keySeed = [] →
       (tunnelInstance n derive b db).result
         = .error ("Instance '" ++ n ++ "' is missing its SSH key")
       ∧ (tunnelInstance n derive b db).trace = [.dbGetInstance n]
       ∧ (keyInstance n derive enc db).result
         = .error ("Instance '" ++ n ++ "' is missing its SSH key")
       ∧ (keyInstance n derive enc db).trace = [.dbGetInstance n])
    ∧ (∀ a u t, Ev.tunnelStart a u t ∈ (tunnelInstance n derive b db).trace →
        inst.keySeed ≠ [] ∧ exOk (NewKeyFromSeed derive inst.keySeed) = true)
    ∧ (∀ pem, Ev.printKey pem ∈ (keyInstance n derive enc db).trace →
        inst.keySeed ≠ [] ∧ exOk (NewKeyFromSeed derive inst.keySeed) = true) := by
  refine ⟨?_, ?_, ?_⟩
  · intro hempty
    refine ⟨?_, ?_, ?_, ?_⟩ <;> simp [tunnelInstance, keyInstance, hget, hempty]
  · intro a u t hm
    by_cases hempty : inst.keySeed.length = 0
    · simp [tunnelInstance, hget, hempty] at hm
    · cases hk : NewKeyFromSeed derive inst.keySeed with
      | error e => simp [tunnelInstance, hget, hempty, hk] at hm
      | ok k =>
          refine ⟨by simpa using hempty, by simp [hk, exOk]⟩
  · intro pem hm
    by_cases hempty : inst.keySeed.length = 0
    · simp [keyInstance, hget, hempty] at hm
    · cases hk : NewKeyFromSeed derive inst.keySeed with
      | error e => simp [keyInstance, hget, hempty, hk] at hm
      | ok k =>
          refine ⟨by simpa using hempty, by simp [hk, exOk]⟩

/-- C8: Factory raises-iff.  `NewClient` returns a client exactly for the
names `"digitalocean"` and `"scaleway"`, returns the
`Cloud '<name>' not supported` error for every other name, and yet
`SupportedProviders` lists only `"scaleway"`, so the interactive
selection never offers DigitalOcean. -/
theorem newclient_factory :
    (∀ s, (∃ c, NewClient s = .ok c) ↔ (s = "digitalocean" ∨ s = "scaleway"))
    ∧ (∀ s, s ≠ "digitalocean" → s ≠ "scaleway" →
        NewClient s = .error ("Cloud '" ++ s ++ "' not supported"))
    ∧ NewClient "digitalocean" = .ok .digitalOceanClient
    ∧ NewClient "scaleway" = .ok .scalewayClient
    ∧ SupportedProviders = ["scaleway"]
    ∧ "digitalocean" ∉ SupportedProviders := by
  have hdo : NewClient "digitalocean" = .ok .digitalOceanClient := by
    simp [NewClient, DigitalOcean, newDigitalOceanClient]
  have hsw : NewClient "scaleway" = .ok .scalewayClient := by
    simp [NewClient, DigitalOcean, Scaleway, newScalewayClient]
  refine ⟨?_, ?_, hdo, hsw, rfl, by simp [SupportedProviders, Scaleway]⟩
  · intro s
    constructor
    · rintro ⟨c, hc⟩
      by_cases h1 : s = "digitalocean"
      · exact Or.inl h1
      · by_cases h2 : s = "scaleway"
        · exact Or.inr h2
        · simp [NewClient, DigitalOcean, Scaleway, h1, h2] at hc
    · rintro (rfl | rfl)
      · exact ⟨_, hdo⟩
      · exact ⟨_, hsw⟩
  · intro s h1 h2
    simp [NewClient, DigitalOcean, Scaleway, h1, h2]

/-- C9: Key round-trip law.  Deriving a key pair from a freshly generated
pair's own seed reproduces the pair — in particular a byte-identical
public key — and the PEM encoding of the private half is deterministic;
all key operations are pure functions of their inputs. -/
theorem key_roundtrip :
    (∀ derive entropy k, GenerateKey derive entropy = .ok k →
       NewKeyFromSeed derive k.seed = .ok k)
    ∧ (∀ derive s k k2, GenerateKey derive (.ok s) = .ok k →
        NewKeyFromSeed derive s = .ok k2 →
        k = k2 ∧ k.pub = k2.pub
          ∧ ∀ enc, EncodePrivateKeytoPEM enc k = EncodePrivateKeytoPEM enc k2) := by
  constructor
  · intro derive entropy k hk
    cases entropy with
    | error e => simp [GenerateKey] at hk
    | ok s =>
        by_cases hl : s.length = seedLength
        · simp [GenerateKey, hl] at hk
          subst hk
          simp [NewKeyFromSeed, hl]
        · simp [GenerateKey, hl] at hk
  · intro derive s k k2 h1 h2
    by_cases hl : s.length = seedLength
    · simp [GenerateKey, hl] at h1
      simp [NewKeyFromSeed, hl] at h2
      subst h1
      subst h2
      exact ⟨rfl, rfl, fun enc => rfl⟩
    · simp [GenerateKey, hl] at h1

/-- C10: whenever `infoCloudProvider` returns without error it prints the
`Status: OK - API reachable` line, and the `Status: NOT OK` line is
unreachable in every run, because a failing `Init` returns early and so
`err` is always nil at the status check. -/
theorem info_status_ok (n : String) (b : InfoBehavior) :
    ((infoCloudProvider n b).2 = .ok () →
       OutLine.statusOK ∈ (infoCloudProvider n b).1)
    ∧ (∀ e, OutLine.statusNotOK e ∉ (infoCloudProvider n b).1)
    ∧ OutLine.statusOK.render = "Status: OK - API reachable"
    ∧ (∀ e, (OutLine.statusNotOK e).render = "Status: NOT OK (" ++ e ++ ")") := by
  refine ⟨?_, ?_, rfl, fun e => rfl⟩
  · intro h
    cases hgc : b.getCloudRes with
    | error e => simp [infoCloudProvider, hgc] at h
    | ok cl =>
        cases hini : b.initRes with
        | error e => simp [infoCloudProvider, errVar, hgc, hini] at h
        | ok u => simp [infoCloudProvider, errVar, hgc, hini]
  · intro e
    cases hgc : b.getCloudRes with
    | error e2 => simp [infoCloudProvider, hgc]
    | ok cl =>
        cases hini : b.initRes with
        | error e2 => simp [infoCloudProvider, errVar, hgc, hini]
        | ok u => simp [infoCloudProvider, errVar, hgc, hini]

/-- A release with a DigitalOcean image entry but no Scaleway entry. -/
def cexRelease : Release := ⟨"1.0", [("digitalocean", ⟨"http://img", "sha-1"⟩)]⟩

/-- A fully cooperative provider behaviour bound to a DigitalOcean cloud
account: the account has no Protos image, and every provider call would
succeed. -/
def cexBehavior : DeployBehavior where
  getCloudRes := .ok ⟨"do1", "digitalocean"⟩
  initRes := .ok ()
  getImagesRes := .ok []
  addImageRes := .ok "img-9"
  genKeyRes := .ok ⟨List.replicate 32 7, List.replicate 32 9⟩
  newInstanceRes := .ok "vm-1"
  getInfoRes1 := .ok ⟨"web1", "", "do1", "vm-1", "ams1", [], []⟩
  saveRes1 := .ok ()
  newVolumeRes := .ok "vol-1"
  attachRes := .ok ()
  startRes := .ok ()
  getInfoRes2 := .ok ⟨"web1", "1.2.3.4", "do1", "vm-1", "ams1", [], []⟩
  saveRes2 := .ok ()

/-- C4, counterexample: the active provider (a DigitalOcean account) has
an image entry for version 1.0 in the release descriptor, yet
`deployInstance` still fails with the unsupported-release error and
creates no instance, because the code consults only the hardcoded
`"scaleway"` entry — refuting the claim that the failure occurs iff the
active provider has no entry. -/
theorem deploy_unsupported_release_counterexample :
    alookup cexRelease.cloudImages "digitalocean" = some ⟨"http://img", "sha-1"⟩
    ∧ (deployInstance "web1" "do1" "ams1" cexRelease cexBehavior []).result
        = .error (.unsupportedRelease
            "Could not find a Scaleway release for Protos version '1.0'")
    ∧ (∀ nm im pk, Ev.newInstance nm im pk
         ∉ (deployInstance "web1" "do1" "ams1" cexRelease cexBehavior []).trace) := by
  refine ⟨by simp [cexRelease, alookup], ?_, ?_⟩
  · simp [deployInstance, cexBehavior, cexRelease, alookup]
  · intro nm im pk
    simp [deployInstance, cexBehavior, cexRelease, alookup]

/-- C4, amended: when the required image is absent from the account,
`deployInstance` fails with the unsupported-release error (and creates no
instance) if and only if the release descriptor has no image entry under
the hardcoded `"scaleway"` key for the requested version — regardless of
the active provider. -/
theorem deploy_unsupported_release_amended (n cn loc : String) (rel : Release)
    (b : DeployBehavior) (db0 : List InstanceInfo) (images : List (String × String))
    (hgc : exOk b.getCloudRes = true) (hini : exOk b.initRes = true)
    (hgi : b.getImagesRes = .ok images)
    (habsent : alookup images ("protos-" ++ rel.version) = none) :
    ((∃ m, (deployInstance n cn loc rel b db0).result
        = .error (.unsupportedRelease m))
      ↔ alookup rel.cloudImages "scaleway" = none)
    ∧ (alookup rel.cloudImages "scaleway" = none →
        (deployInstance n cn loc rel b db0).result
          = .error (.unsupportedRelease
              ("Could not find a Scaleway release for Protos version '"
                ++ rel.version ++ "'"))
        ∧ (∀ nm im pk, Ev.newInstance nm im pk
             ∉ (deployInstance n cn loc rel b db0).trace)) := by
  obtain ⟨p, hgc'⟩ := exOk_ok _ hgc
  obtain ⟨uu, hini'⟩ := exOk_ok _ hini
  constructor
  · constructor
    · rintro ⟨m, hm⟩
      cases hsw : alookup rel.cloudImages "scaleway" with
      | none => rfl
      | some image =>
          cases hai : b.addImageRes with
          | error e =>
              simp [deployInstance, hgc', hini', hgi, habsent, hsw, hai] at hm
          | ok id =>
              have heqd : deployInstance n cn loc rel b db0
                  = deployAfterImage n b db0
                      [Ev.getCloud cn, Ev.clientInit loc, Ev.getImages,
                       Ev.addImage image.url image.digest rel.version] id := by
                simp [deployInstance, hgc', hini', hgi, habsent, hsw, hai]
              rw [heqd] at hm
              exact absurd hm (deployAfterImage_result_not_unsupported _ _ _ _ _ _)
    · intro hsw
      exact ⟨"Could not find a Scaleway release for Protos version '" ++ rel.version ++ "'",
        by simp [deployInstance, hgc', hini', hgi, habsent, hsw]⟩
  · intro hsw
    constructor
    · simp [deployInstance, hgc', hini', hgi, habsent, hsw]
    · intro nm im pk
      simp [deployInstance, hgc', hini', hgi, habsent, hsw]

/-!  Concrete fixtures evaluating the embedded operations on closed inputs. -/

/-- A concrete 32-byte key pair. -/
def wKey : KeyPair := ⟨List.replicate 32 5, List.replicate 32 6⟩

/-- A release whose scaleway image entry exists. -/
def wRelease : Release := ⟨"1.0", [("scaleway", ⟨"http://img", "sha-1"⟩)]⟩

/-- The provider snapshot right after instance creation. -/
def wInfo1 : InstanceInfo := ⟨"web1", "", "sc1", "vm-1", "par1", [], []⟩

/-- The provider snapshot right after a successful start. -/
def wInfo2 : InstanceInfo := ⟨"web1", "1.2.3.4", "sc1", "vm-1", "par1", [], []⟩

/-- A fully cooperative deployment behaviour whose account already holds
the protos-1.0 image. -/
def wOkBehavior : DeployBehavior where
  getCloudRes := .ok ⟨"sc1", "scaleway"⟩
  initRes := .ok ()
  getImagesRes := .ok [("protos-1.0", "img-1")]
  addImageRes := .ok "img-1"
  genKeyRes := .ok wKey
  newInstanceRes := .ok "vm-1"
  getInfoRes1 := .ok wInfo1
  saveRes1 := .ok ()
  newVolumeRes := .ok "vol-1"
  attachRes := .ok ()
  startRes := .ok ()
  getInfoRes2 := .ok wInfo2
  saveRes2 := .ok ()

/-- The record the successful deployment run stores last. -/
def wFinal : InstanceInfo :=
  ⟨"web1", "1.2.3.4", "sc1", "vm-1", "par1", List.replicate 32 5, []⟩

/-- The stopped-instance snapshot enumerating two attached volumes. -/
def wVmInfo : InstanceInfo :=
  ⟨"web1", "1.2.3.4", "sc1", "vm-1", "par1", [],
    [⟨"data1", "vol-1"⟩, ⟨"data2", "vol-2"⟩]⟩

/-- A teardown behaviour where the second volume deletion fails. -/
def wDel : DeleteBehavior where
  getCloudRes := .ok ⟨"sc1", "scaleway"⟩
  initRes := .ok ()
  stopRes := .ok ()
  infoRes := .ok wVmInfo
  delInstanceRes := .ok ()
  delVolumeOK := fun v => v == "vol-1"

/-- The cooperative behaviour with volume creation failing. -/
def wVolFail : DeployBehavior := { wOkBehavior with newVolumeRes := .error "quota" }

/-- A tunnel that starts on local port 49152 and closes cleanly. -/
def wTunnelB : TunnelBehavior := ⟨.ok 49152, .ok ()⟩

/-- A stored record missing its key seed. -/
def wInstNoKey : InstanceInfo := ⟨"web2", "5.6.7.8", "sc1", "vm-2", "par1", [], []⟩

/-- C1 witness: on a fully successful concrete run the final stored
record carries the generated seed. -/
theorem deploy_two_checkpoints_witness :
    wFinal.keySeed = wKey.seed
    ∧ storeGet (deployInstance "web1" "sc1" "par1" wRelease wOkBehavior []).db
        wFinal.name = some wFinal := by
  have h := deploy_two_checkpoints "web1" "sc1" "par1" wRelease wOkBehavior [] wKey rfl
    (by decide)
    (by intro i1 vmID h1 h2
        simp [wOkBehavior] at h1 h2
        simp [← h1, ← h2, wInfo1])
    (by simp)
  exact h.2.2.2 wFinal rfl

/-- C3 witness: deleting the concrete instance whose second volume
deletion fails still deletes both volumes' targets and removes the local
record. -/
theorem delete_best_effort_witness :
    (deleteInstance "web1" wDel [wFinal]).result = .ok ()
    ∧ storeGet (deleteInstance "web1" wDel [wFinal]).db "web1" = none
    ∧ Ev.deleteVolume "vol-1" ∈ (deleteInstance "web1" wDel [wFinal]).trace
    ∧ Ev.deleteVolume "vol-2" ∈ (deleteInstance "web1" wDel [wFinal]).trace := by
  have h := (delete_best_effort "web1" wDel [wFinal] wFinal rfl rfl rfl).2.2.2 wVmInfo
    rfl rfl rfl
  refine ⟨h.2.2.2.2, h.2.2.2.1, ?_, ?_⟩
  · exact h.2.1 ⟨"data1", "vol-1"⟩ (by simp [wVmInfo])
  · exact h.2.1 ⟨"data2", "vol-2"⟩ (by simp [wVmInfo])

/-- C4 witness: at the concrete DigitalOcean input the amended iff gives
the unsupported-release failure and no instance creation. -/
theorem deploy_unsupported_release_amended_witness :
    (deployInstance "web1" "do1" "ams1" cexRelease cexBehavior []).result
      = .error (.unsupportedRelease
          ("Could not find a Scaleway release for Protos version '"
            ++ "1.0" ++ "'"))
    ∧ (∀ nm im pk, Ev.newInstance nm im pk
         ∉ (deployInstance "web1" "do1" "ams1" cexRelease cexBehavior []).trace) := by
  have h := deploy_unsupported_release_amended "web1" "do1" "ams1" cexRelease
    cexBehavior [] [] rfl rfl rfl rfl
  exact h.2 rfl

/-- C5 witness: the concrete volume-creation failure leaves the
first-checkpoint record stored, and the subsequent delete succeeds and
removes it. -/
theorem deploy_partial_volume_failure_witness :
    (∃ er, (deployInstance "web1" "sc1" "par1" wRelease wVolFail []).result
        = .error er)
    ∧ storeGet (deployInstance "web1" "sc1" "par1" wRelease wVolFail []).db "web1"
        = some wInfo1
    ∧ (deleteInstance "web1" wDel
        (deployInstance "web1" "sc1" "par1" wRelease wVolFail []).db).result = .ok ()
    ∧ storeGet (deleteInstance "web1" wDel
        (deployInstance "web1" "sc1" "par1" wRelease wVolFail []).db).db "web1"
        = none := by
  have h := deploy_partial_volume_failure "web1" "sc1" "par1" wRelease wVolFail wDel []
    wKey "vm-1" wInfo1 rfl rfl ⟨[("protos-1.0", "img-1")], rfl, Or.inl rfl⟩
    rfl rfl rfl rfl rfl rfl rfl rfl
    (Or.inl ⟨"quota", rfl⟩) rfl rfl rfl ⟨wVmInfo, rfl⟩ rfl
  exact ⟨h.1, h.2.1, h.2.2.2.2.1, h.2.2.2.2.2⟩

/-- C6 witness: the concrete tunnel run closes exactly once, after the
signal, as its last action. -/
theorem tunnel_signal_close_witness :
    (tunnelInstance "web1" (fun s => s) wTunnelB [wFinal]).trace
      = [.dbGetInstance "web1",
         .tunnelStart ("1.2.3.4" ++ ":22") "root" "localhost:8080",
         .waitSignal, .tunnelClose]
    ∧ (tunnelInstance "web1" (fun s => s) wTunnelB [wFinal]).trace.count
        Ev.tunnelClose = 1
    ∧ (tunnelInstance "web1" (fun s => s) wTunnelB [wFinal]).trace.getLast?
        = some Ev.tunnelClose :=
  tunnel_signal_close "web1" (fun s => s) wTunnelB [wFinal] wFinal 49152 rfl
    (by decide) rfl

/-- C7 witness: the concrete record with an empty seed makes both tunnel
and key printing fail with the missing-key error and no further
actions. -/
theorem key_seed_precondition_witness :
    (tunnelInstance "web2" (fun s => s) wTunnelB [wInstNoKey]).result
      = .error ("Instance '" ++ "web2" ++ "' is missing its SSH key")
    ∧ (tunnelInstance "web2" (fun s => s) wTunnelB [wInstNoKey]).trace
      = [.dbGetInstance "web2"]
    ∧ (keyInstance "web2" (fun s => s) (fun _ => "PEM") [wInstNoKey]).result
      = .error ("Instance '" ++ "web2" ++ "' is missing its SSH key")
    ∧ (keyInstance "web2" (fun s => s) (fun _ => "PEM") [wInstNoKey]).trace
      = [.dbGetInstance "web2"] :=
  (key_seed_precondition "web2" (fun s => s) (fun _ => "PEM") wTunnelB [wInstNoKey]
    wInstNoKey rfl).1 rfl

end Protos
